import Mathlib

set_option maxRecDepth 8000

/- Verification development for the telegram lead bot (src/bot.py).

The file shallowly embeds the pure core of the bot: lead extraction
(LeadBot._extract_all_leads_info), the retry loop
(LeadBot._add_lead_with_retry), the on-disk backup writer
(LeadBot._save_to_backup), the restore pass (LeadBot.restore_failed_leads),
the backup counter (LeadStatsManager._count_backup_leads), the daily report
counter (GoogleSheetsManager.count_leads_for_date) and the message handler
(LeadBot.handle_message).  External effects (the sheets API, the file system,
sleeping) are passed in as explicit oracles or state, so every function here
is executable.  The acknowledgement tracker of the specification has no code
in src/, so it is modelled from the spec, and marked as such. -/

/-! ## Character classes (ASCII core of the regexes in bot.py) -/

/-- ASCII word character: the token class of the handle regex in
`_extract_all_leads_info`.  The regex is ASCII-token based per the spec. -/
def isWordChar (c : Char) : Bool := c.isAlphanum || c == '_'

/-- ASCII whitespace, the complement of the character class used inside the
link regex of `_extract_all_leads_info`. -/
def isSpaceChar (c : Char) : Bool :=
  c == ' ' || c == '\t' || c == '\n' || c == '\r' || c == '\x0b' || c == '\x0c'

/-- Case-insensitive match of `pat` (given in lower case) against the front
of `l`; models matching a literal under the IGNORECASE flag. -/
def startsWithCI : List Char → List Char → Bool
  | [], _ => true
  | _ :: _, [] => false
  | p :: ps, c :: cs => (c.toLower == p) && startsWithCI ps cs

/-- Case-insensitive occurrence of `pat` anywhere in the list. -/
def containsCI (pat : List Char) : List Char → Bool
  | [] => startsWithCI pat []
  | c :: cs => startsWithCI pat (c :: cs) || containsCI pat cs

/-- Exact match of `pat` against the front of `l` (case sensitive). -/
def strStartsWith : List Char → List Char → Bool
  | [], _ => true
  | _ :: _, [] => false
  | p :: ps, c :: cs => (c == p) && strStartsWith ps cs

/-- ASCII lower-casing of a string, the embedding of Python `str.lower()` on
the ASCII handles this program deals in. -/
def lowerStr (s : String) : String := String.mk (s.toList.map Char.toLower)

/-! ## The link regex of `_extract_all_leads_info` (src/bot.py line 353)

The pattern is `https?://[^\s]*amocrm[^\s]*` with IGNORECASE.  A match
anchored at a position exists exactly when the text there starts with
`http://` or `https://` (case-insensitively) and the run of non-whitespace
characters after that scheme contains `amocrm` (case-insensitively); the
greedy trailing `[^\s]*` then extends the match to the end of that run. -/

/-- Length of the anchored match, given that the scheme occupies the first
`k` characters: the whole non-whitespace run after the scheme is included
when it contains the platform marker `amocrm`. -/
def linkRunLen (k : Nat) (l : List Char) : Option Nat :=
  let run := (l.drop k).takeWhile (fun c => !(isSpaceChar c))
  if containsCI ("amocrm".toList) run then some (k + run.length) else none

/-- Length of the regex match anchored at the front of `l`, if any. -/
def linkAt (l : List Char) : Option Nat :=
  if startsWithCI ("https://".toList) l then linkRunLen 8 l
  else if startsWithCI ("http://".toList) l then linkRunLen 7 l
  else none

/-- `re.search` of the link regex: the leftmost anchored match wins.  Returns
the matched text, i.e. the `amo_link` of `_extract_all_leads_info`. -/
def searchLink : List Char → Option String
  | [] => none
  | c :: cs =>
    match linkAt (c :: cs) with
    | some k => some (String.mk ((c :: cs).take k))
    | none => searchLink cs

/-- `re.findall`-style count of non-overlapping link matches, scanning left
to right and resuming after each match; counts the deal-reference URLs of a
message.  The fuel argument is the scan length; a match always consumes at
least one character, so `countLinks` below supplies enough fuel. -/
def countLinksAux : Nat → List Char → Nat
  | 0, _ => 0
  | _ + 1, [] => 0
  | fuel + 1, c :: cs =>
    match linkAt (c :: cs) with
    | some k => 1 + countLinksAux fuel ((c :: cs).drop k)
    | none => countLinksAux fuel cs

/-- Number of deal-reference URL matches in the character list. -/
def countLinks (l : List Char) : Nat := countLinksAux l.length l

/-- Number of deal-reference URLs in a message text. -/
def countRefs (text : String) : Nat := countLinks text.toList

/-! ## The handle regex `@(\w+)` of `_extract_all_leads_info` (line 363) -/

/-- `re.findall` of `@(\w+)`: scan left to right; at each `@` followed by a
word character, capture the maximal word run and resume after it.  The fuel
argument is the scan length; each step consumes at least one character, so
`findHandles` below supplies enough fuel. -/
def findHandlesAux : Nat → List Char → List String
  | 0, _ => []
  | _ + 1, [] => []
  | fuel + 1, c :: cs =>
    if c == '@' then
      match cs with
      | [] => []
      | c2 :: cs2 =>
        if isWordChar c2 then
          String.mk (c2 :: cs2.takeWhile isWordChar) ::
            findHandlesAux fuel (cs2.dropWhile isWordChar)
        else findHandlesAux fuel (c2 :: cs2)
    else findHandlesAux fuel cs

/-- All handle tokens of the text, in order, with their original case. -/
def findHandles (l : List Char) : List String := findHandlesAux l.length l

/-- Number of handle tokens in a message text. -/
def countHandles (text : String) : Nat := (findHandles text.toList).length

/-! ## `LeadBot._extract_all_leads_info` (src/bot.py lines 349-382) -/

/-- Embedding of `LeadBot._extract_all_leads_info`: search for the first
AmoCRM link; if none, return no leads; otherwise find all handle tokens; if
none, return no leads; otherwise pair every handle, lower-cased, with that
single link.  Both branches of the membership test in the source append the
same pair, so the result does not depend on the `user_tabs` lookup. -/
def extract_all_leads_info (text : String) : List (String × String) :=
  match searchLink text.toList with
  | none => []
  | some amoLink =>
    let usernames := findHandles text.toList
    if usernames.isEmpty then []
    else usernames.map (fun u => (lowerStr u, amoLink))

/-! ## `LeadBot._add_lead_with_retry` (src/bot.py lines 384-400)

The loop `for attempt in range(max_retries)` calls `append_lead` once per
iteration; on success it returns `True`; on failure (a `False` result or an
exception, which `append_lead` itself already converts to `False`) it sleeps
`2 ** attempt` seconds whenever `attempt < max_retries - 1`, and after the
last attempt returns `False`.  The oracle `ok` gives the outcome of the
append call at each attempt index; the trace records the number of calls
made and the sleep delays in order. -/

/-- Trace of one `_add_lead_with_retry` invocation. -/
structure RetryTrace where
  succeeded : Bool
  calls : Nat
  sleeps : List Nat
deriving DecidableEq

/-- The retry loop body, iterating over the remaining attempt indices. -/
def retryGo (ok : Nat → Bool) (maxRetries : Nat) : List Nat → RetryTrace
  | [] => { succeeded := false, calls := 0, sleeps := [] }
  | a :: rest =>
    if ok a then { succeeded := true, calls := 1, sleeps := [] }
    else
      let r := retryGo ok maxRetries rest
      { succeeded := r.succeeded, calls := r.calls + 1,
        sleeps := if a < maxRetries - 1 then 2 ^ a :: r.sleeps else r.sleeps }

/-- Embedding of `LeadBot._add_lead_with_retry`. -/
def add_lead_with_retry (ok : Nat → Bool) (maxRetries : Nat) : RetryTrace :=
  retryGo ok maxRetries (List.range maxRetries)

/-! ## `LeadBot.handle_message` (src/bot.py lines 432-509) -/

/-- The static `self.user_tabs` mapping (src/bot.py lines 288-309). -/
def user_tabs : List (String × String) :=
  [("texnopos_company", "Технопос"),
   ("abdukhafizov95", "Самарканд"),
   ("aqly_office", "Хорезм"),
   ("aqly_uz", "Хорезм"),
   ("aqly_hr", "Хорезм"),
   ("billz_namangan", "Наманган"),
   ("uzstylegroup", "Наманган"),
   ("utkirraimov", "Джиззак"),
   ("bob_7007", "Джиззак"),
   ("farhod_developer", "Термез"),
   ("burhan_ergashov", "Ташкент"),
   ("mfarrux", "Бухара"),
   ("nasimjon_2014", "Бухара"),
   ("billzfergana", "Фергана"),
   ("okmurtazaev", "Фергана"),
   ("bobur_abdukahharov", "Ош"),
   ("sysadmin7777", "Кходжанд"),
   ("sibrohimovg", "All"),
   ("makhmud23", "All"),
   ("ravshan_billz", "All")]

/-- `self.user_tabs.get(username, "All")` (src/bot.py line 481). -/
def bucketFor (username : String) : String := (user_tabs.lookup username).getD "All"

/-- The slice of an inbound chat message that `handle_message` consumes. -/
structure TgMessage where
  fromUsername : Option String
  caption : Option String
  text : Option String
deriving DecidableEq

/-- Python truthiness of an optional string: absent or empty is falsy. -/
def truthy : Option String → Bool
  | none => false
  | some s => !s.isEmpty

/-- Embedding of `LeadBot._extract_message_text` (src/bot.py lines 314-326):
caption wins over text; the forwarded-message branch re-reads the same two
falsy fields and therefore yields nothing. -/
def extract_message_text (m : TgMessage) : Option String :=
  if truthy m.caption then m.caption
  else if truthy m.text then m.text
  else none

/-- `message.from_user.username if message.from_user else "Unknown"`. -/
def senderName (m : TgMessage) : String := m.fromUsername.getD "Unknown"

/-- The 5-column row built in `handle_message` (src/bot.py lines 484-490):
timestamp, raw message text, AmoCRM link, assignee username, sender. -/
def leadRow (now text amoLink username sender : String) : List String :=
  [now, text, amoLink, username, sender]

/-- One lead processed by `handle_message`: the worksheet it was routed to,
the row written, and whether the retried append succeeded (when it did not,
the row is saved to the backup file instead). -/
structure ProcessedLead where
  worksheet : String
  row : List String
  delivered : Bool
deriving DecidableEq

/-- Embedding of `LeadBot.handle_message`: drop messages from the
notifications bot, extract the message text, extract all leads, and process
each one, routing by `user_tabs` and appending with retry; `ok ws row` gives
the outcome of each `append_lead` call. -/
def handle_message (ok : String → List String → Bool) (now : String)
    (m : TgMessage) : List ProcessedLead :=
  if m.fromUsername = some "billzsalesnotificationsbot" then []
  else
    match extract_message_text m with
    | none => []
    | some messageText =>
      (extract_all_leads_info messageText).map (fun lead =>
        let ws := bucketFor lead.1
        let row := leadRow now messageText lead.2 lead.1 (senderName m)
        { worksheet := ws, row := row,
          delivered := (add_lead_with_retry (fun _ => ok ws row) 3).succeeded })

/-! ## `LeadBot._save_to_backup` (src/bot.py lines 402-430)

The backup file for a given day is named `failed_leads_<YYYYMMDD>.json` and
holds one JSON array.  Saving reads the existing array (a missing or
unparsable file counts as the empty array) and appends one object literal
`{"timestamp": ..., "worksheet": ..., "data": ...}`. -/

/-- The JSON values this program serialises. -/
inductive JsonVal where
  | str (s : String)
  | arr (elems : List JsonVal)
  | obj (fields : List (String × JsonVal))

/-- The key list of a JSON object. -/
def objKeys : JsonVal → List String
  | JsonVal.obj fields => fields.map Prod.fst
  | _ => []

/-- `f"failed_leads_{datetime.now().strftime('%Y%m%d')}.json"` (line 405). -/
def backupFileName (ymd : String) : String := "failed_leads_" ++ ymd ++ ".json"

/-- The `backup_entry` dictionary of `_save_to_backup` (lines 407-411). -/
def backupEntryJson (isoTimestamp worksheetName : String) (data : List String) : JsonVal :=
  JsonVal.obj [("timestamp", JsonVal.str isoTimestamp),
               ("worksheet", JsonVal.str worksheetName),
               ("data", JsonVal.arr (data.map JsonVal.str))]

/-- Embedding of `LeadBot._save_to_backup`: returns the name of the file
written and its new contents, given the parsed existing contents (`none`
models FileNotFoundError / JSONDecodeError, handled as the empty array). -/
def save_to_backup (isoTimestamp ymd worksheetName : String) (data : List String)
    (existing : Option (List JsonVal)) : String × List JsonVal :=
  (backupFileName ymd,
   existing.getD [] ++ [backupEntryJson isoTimestamp worksheetName data])

/-! ## `LeadBot.restore_failed_leads` (src/bot.py lines 603-636) and
`LeadStatsManager._count_backup_leads` (lines 268-281)

Both walk `glob.glob("failed_leads_*.json")`.  The restore pass parses each
file (a parse failure is caught, logged and skipped), re-attempts every
entry once via `_add_lead_with_retry(..., max_retries=1)`, and renames the
file to `processed_<name>` whenever `restored_count > 0`. -/

/-- One parsed element of a backup file, as `restore_failed_leads` reads it:
`lead["worksheet"]` and `lead["data"]` (the timestamp rides along). -/
structure BackupEntry where
  timestamp : String
  worksheet : String
  data : List String
deriving DecidableEq

/-- Contents of one backup file: a parsed entry list, or unreadable. -/
inductive FileContent where
  | ok (entries : List BackupEntry)
  | corrupt
deriving DecidableEq

/-- One file of the working directory. -/
structure PartitionFile where
  name : String
  content : FileContent
deriving DecidableEq

/-- The glob pattern `failed_leads_*.json`: the fixed front, the fixed
`.json` tail, and enough length that the two do not overlap. -/
def globMatch (name : String) : Bool :=
  strStartsWith ("failed_leads_".toList) name.toList &&
  strStartsWith (".json".toList.reverse) name.toList.reverse &&
  decide ("failed_leads_".length + ".json".length ≤ name.length)

/-- Success of the single re-delivery attempt the restore pass makes for one
entry: `_add_lead_with_retry(lead["worksheet"], lead["data"], max_retries=1)`
with the append outcome given by `ok`. -/
def entryRestored (ok : String → List String → Bool) (e : BackupEntry) : Bool :=
  (add_lead_with_retry (fun _ => ok e.worksheet e.data) 1).succeeded

/-- One iteration of the restore loop over a single file (lines 610-634):
skip non-matching names, skip unreadable files, otherwise re-attempt every
entry once and rename the file when at least one entry succeeded.  Returns
(restored count, failed count, resulting file). -/
def processFile (ok : String → List String → Bool) (f : PartitionFile) :
    Nat × Nat × PartitionFile :=
  if globMatch f.name then
    match f.content with
    | FileContent.corrupt => (0, 0, f)
    | FileContent.ok entries =>
      let restoredCount := entries.countP (fun e => entryRestored ok e)
      let failedCount := entries.countP (fun e => !(entryRestored ok e))
      if 0 < restoredCount then
        (restoredCount, failedCount,
          { name := "processed_" ++ f.name, content := f.content })
      else (restoredCount, failedCount, f)
  else (0, 0, f)

/-- Result of a restore pass: the two totals it returns and the state of the
directory afterwards. -/
structure RestoreOutcome where
  restored : Nat
  failed : Nat
  files : List PartitionFile
deriving DecidableEq

/-- Embedding of `LeadBot.restore_failed_leads` over the directory listing. -/
def restore_failed_leads (ok : String → List String → Bool) :
    List PartitionFile → RestoreOutcome
  | [] => { restored := 0, failed := 0, files := [] }
  | f :: rest =>
    let r := processFile ok f
    let tailOut := restore_failed_leads ok rest
    { restored := r.1 + tailOut.restored, failed := r.2.1 + tailOut.failed,
      files := r.2.2 :: tailOut.files }

/-- Embedding of `LeadStatsManager._count_backup_leads`: sum the entry counts
of the readable glob-matching files, skipping unreadable ones. -/
def count_backup_leads : List PartitionFile → Nat
  | [] => 0
  | f :: rest =>
    (if globMatch f.name then
      match f.content with
      | FileContent.ok entries => entries.length
      | FileContent.corrupt => 0
    else 0) + count_backup_leads rest

/-! ## `GoogleSheetsManager.count_leads_for_date` (src/bot.py lines 170-200) -/

/-- `str(row[0]).split(' ')[0]`: the text before the first space. -/
def dateOnly (s : String) : String :=
  String.mk (s.toList.takeWhile (fun c => c != ' '))

/-- Embedding of `count_leads_for_date`.  The worksheet is `none` when the
tab does not exist (gspread WorksheetNotFound), which the source catches and
turns into 0.  Otherwise the source drops the first row as a header whenever
the sheet has more than one row, then counts the non-empty rows whose
first-column date part equals the requested date. -/
def count_leads_for_date (sheet : Option (List (List String))) (date : String) : Nat :=
  match sheet with
  | none => 0
  | some allValues =>
    let dataRows := if 1 < allValues.length then allValues.drop 1 else allValues
    dataRows.foldl
      (fun count row =>
        if !row.isEmpty && (dateOnly (row.headD "") == date) then count + 1
        else count) 0

/-- Worded from the claim: a ledger row matches the requested date when its
first-column value's date part (the text before the first space) equals that
date.  Kept separate from the embedding so the two can be compared. -/
def specRowMatches (date : String) (row : List String) : Bool :=
  !row.isEmpty && (dateOnly (row.headD "") == date)

/-- Worded from the claim: the number of matching rows. -/
def specDailyCount (rows : List (List String)) (date : String) : Nat :=
  (rows.filter (specRowMatches date)).length

/-! ## Acknowledgement tracker (spec §4.6)

No revision of the repository under src/ contains the acknowledgement
tracker, so it is modelled from the specification: a per-chat session is
created in `pending` right after a successful delivery reply; a timer sends
reminder k after cumulative delay D1+...+Dk for k = 1, 2, 3 and expires the
session after D1+D2+D3+D4; an inbound confirmation removes the session and
cancels the timers; the timer checks that the session still exists before
every send. -/

/-- Modelled from the spec: the non-terminal states of the per-delivery
acknowledgement state machine pending → reminded(k); the terminal states
confirmed and expired coincide with removal of the session. -/
inductive AckState where
  | pending
  | reminded1
  | reminded2
  | reminded3
deriving DecidableEq

/-- Modelled from the spec: one live acknowledgement session. -/
structure AckSession where
  createdAt : Nat
  state : AckState
deriving DecidableEq

/-- Modelled from the spec: the reminder delays D1, D2, D3, D4, in ticks. -/
structure AckDelays where
  d1 : Nat
  d2 : Nat
  d3 : Nat
  d4 : Nat

/-- Modelled from the spec: the tracker for one chat — the live session (if
any), the times at which reminder messages were sent, and the time at which
the session expired (if it did). -/
structure AckTracker where
  session : Option AckSession
  sends : List Nat
  expiredAt : Option Nat
deriving DecidableEq

/-- Modelled from the spec: session creation after a successful delivery
reply, in state pending and with no reminders sent. -/
def ackInit (t0 : Nat) : AckTracker :=
  { session := some { createdAt := t0, state := AckState.pending },
    sends := [], expiredAt := none }

/-- Modelled from the spec: the next scheduled timer action for a live
session — reminder k after cumulative delay D1+...+Dk, expiry after
D1+D2+D3+D4. -/
def nextEventTime (D : AckDelays) (sess : AckSession) : Nat :=
  match sess.state with
  | AckState.pending => sess.createdAt + D.d1
  | AckState.reminded1 => sess.createdAt + D.d1 + D.d2
  | AckState.reminded2 => sess.createdAt + D.d1 + D.d2 + D.d3
  | AckState.reminded3 => sess.createdAt + D.d1 + D.d2 + D.d3 + D.d4

/-- Modelled from the spec: the timer action at tick `t` for a session known
to be live — fire the due reminder or the expiry, otherwise do nothing. -/
def ackTimerStep (D : AckDelays) (t : Nat) (sess : AckSession) (s : AckTracker) :
    AckTracker :=
  match sess.state with
  | AckState.pending =>
    if t = sess.createdAt + D.d1 then
      { s with session := some { sess with state := AckState.reminded1 },
               sends := s.sends ++ [t] }
    else s
  | AckState.reminded1 =>
    if t = sess.createdAt + D.d1 + D.d2 then
      { s with session := some { sess with state := AckState.reminded2 },
               sends := s.sends ++ [t] }
    else s
  | AckState.reminded2 =>
    if t = sess.createdAt + D.d1 + D.d2 + D.d3 then
      { s with session := some { sess with state := AckState.reminded3 },
               sends := s.sends ++ [t] }
    else s
  | AckState.reminded3 =>
    if t = sess.createdAt + D.d1 + D.d2 + D.d3 + D.d4 then
      { s with session := none, expiredAt := some t }
    else s

/-- Modelled from the spec: one tick of the tracker at time `t`.  A
confirmation arriving at `t` is handled first and removes the session, so
the timer — which checks session existence before each send — can never
send at or after the confirmation time. -/
def ackTick (D : AckDelays) (confirmAt : Option Nat) (t : Nat) (s : AckTracker) :
    AckTracker :=
  let s1 := if confirmAt = some t then { s with session := none } else s
  match s1.session with
  | none => s1
  | some sess => ackTimerStep D t sess s1

/-- Modelled from the spec: run the tracker tick by tick, `k` ticks starting
at time `t`. -/
def ackRunFrom (D : AckDelays) (confirmAt : Option Nat) : Nat → Nat → AckTracker → AckTracker
  | _, 0, s => s
  | t, k + 1, s => ackRunFrom D confirmAt (t + 1) k (ackTick D confirmAt t s)

/-- Modelled from the spec: the whole life of one session — created at `t0`,
observed for `steps` ticks, with an optional inbound confirmation. -/
def ackRun (D : AckDelays) (confirmAt : Option Nat) (t0 steps : Nat) : AckTracker :=
  ackRunFrom D confirmAt t0 steps (ackInit t0)

/-! ## Sanity checks: the embedded functions on concrete inputs -/

example : findHandles ("@Burhan_Ergashov hi @x-y").toList = ["Burhan_Ergashov", "x"] := by
  decide

example :
    searchLink ("see https://x.amocrm.ru/1 now").toList = some "https://x.amocrm.ru/1" := by
  decide

example : countRefs "a https://x.amocrm.ru/1 https://y.amocrm.ru/2" = 2 := by decide

example :
    extract_all_leads_info "@Burhan_Ergashov https://x.amocrm.ru/1" =
      [("burhan_ergashov", "https://x.amocrm.ru/1")] := by decide

example :
    add_lead_with_retry (fun _ => false) 3 =
      { succeeded := false, calls := 3, sleeps := [1, 2] } := by decide

example :
    add_lead_with_retry (fun a => a == 1) 3 =
      { succeeded := true, calls := 2, sleeps := [1] } := by decide

example :
    handle_message (fun _ _ => true) "2025-01-01 10:00:00"
      { fromUsername := some "sender1", caption := none,
        text := some "@Burhan_Ergashov https://x.amocrm.ru/1" } =
      [{ worksheet := "Ташкент",
         row := ["2025-01-01 10:00:00", "@Burhan_Ergashov https://x.amocrm.ru/1",
                 "https://x.amocrm.ru/1", "burhan_ergashov", "sender1"],
         delivered := true }] := by decide

example : globMatch "failed_leads_20250101.json" = true := by decide

example : globMatch "processed_failed_leads_20250101.json" = false := by decide

example :
    count_leads_for_date
      (some [["Дата", "Сообщение"], ["2025-01-01 10:00:00", "m"]]) "2025-01-01" = 1 := by
  decide

example :
    ackRun { d1 := 2, d2 := 2, d3 := 2, d4 := 2 } none 0 10 =
      { session := none, sends := [2, 4, 6], expiredAt := some 8 } := by decide

example :
    ackRun { d1 := 2, d2 := 2, d3 := 2, d4 := 2 } (some 5) 0 10 =
      { session := none, sends := [2, 4], expiredAt := none } := by decide

example :
    ackRun { d1 := 2, d2 := 2, d3 := 2, d4 := 2 } (some 0) 0 10 =
      { session := none, sends := [], expiredAt := none } := by decide

/-! ## Extraction lemmas -/

/-- If the leftmost search finds no link, neither does the findall scan. -/
theorem countLinksAux_eq_zero (fuel : Nat) :
    ∀ l : List Char, searchLink l = none → countLinksAux fuel l = 0 := by
  induction fuel with
  | zero => intro l _; rfl
  | succ fuel ih =>
    intro l hl
    cases l with
    | nil => rfl
    | cons c cs =>
      cases hk : linkAt (c :: cs) with
      | some k => simp [searchLink, hk] at hl
      | none =>
        simp only [searchLink, hk] at hl
        simp only [countLinksAux, hk]
        exact ih cs hl

/-- A positive reference count yields a leftmost match. -/
theorem searchLink_of_countLinks (l : List Char) (h : 1 ≤ countLinks l) :
    ∃ s, searchLink l = some s := by
  cases hs : searchLink l with
  | some s => exact ⟨s, rfl⟩
  | none =>
    have h0 : countLinks l = 0 := countLinksAux_eq_zero l.length l hs
    omega

/-- C7: for every message text on which the AmoCRM link search fails — in
particular for every text containing no URL with the platform marker — the
extractor returns the empty list, regardless of how many handle tokens the
text contains. -/
theorem no_reference_guard (text : String) (h : searchLink text.toList = none) :
    extract_all_leads_info text = [] := by
  have h' : searchLink text.data = none := h
  simp [extract_all_leads_info, h']

theorem no_reference_guard_witness :
    searchLink ("hello @burhan_ergashov visit billz.amocrm today").toList = none ∧
    extract_all_leads_info "hello @burhan_ergashov visit billz.amocrm today" = [] := by
  constructor
  · decide
  · exact no_reference_guard _ (by decide)

/-- C1 counterexample: a text with exactly one handle token and two
deal-reference URLs, for which the extractor returns one pair, not
1 × 2 = 2 — only the first reference is ever paired. -/
theorem extract_pairing_counterexample :
    countHandles "@burhan_ergashov https://x.amocrm.ru/1 https://y.amocrm.ru/2" = 1 ∧
    countRefs "@burhan_ergashov https://x.amocrm.ru/1 https://y.amocrm.ru/2" = 2 ∧
    (extract_all_leads_info
        "@burhan_ergashov https://x.amocrm.ru/1 https://y.amocrm.ru/2") =
      [("burhan_ergashov", "https://x.amocrm.ru/1")] ∧
    (extract_all_leads_info
        "@burhan_ergashov https://x.amocrm.ru/1 https://y.amocrm.ru/2").length ≠ 1 * 2 := by
  refine ⟨by decide, by decide, by decide, by decide⟩

/-- C1 amended: for text containing H ≥ 1 handle tokens and R ≥ 1
deal-reference URLs, the extractor returns exactly H mentions (H × 1, not
H × R), pairing every handle with the single leftmost reference. -/
theorem extract_pairing_first_link (text : String)
    (hH : 1 ≤ countHandles text) (hR : 1 ≤ countRefs text) :
    (extract_all_leads_info text).length = countHandles text ∧
    ∀ p ∈ extract_all_leads_info text, searchLink text.toList = some p.2 := by
  obtain ⟨s, hs⟩ := searchLink_of_countLinks _ hR
  have hs' : searchLink text.data = some s := hs
  have hne : findHandles text.data ≠ [] := by
    intro hfh
    have h0 : countHandles text = 0 := by
      simp [countHandles, String.toList, hfh]
    omega
  constructor
  · simp [extract_all_leads_info, hs', hne, countHandles, String.toList]
  · intro p hp
    have hp' : p ∈ (findHandles text.data).map (fun u => (lowerStr u, s)) := by
      simpa [extract_all_leads_info, hs', hne] using hp
    obtain ⟨u, _, hpu⟩ := List.mem_map.mp hp'
    rw [hs, ← hpu]

theorem extract_pairing_first_link_witness :
    1 ≤ countHandles "@burhan_ergashov @mfarrux https://x.amocrm.ru/1" ∧
    1 ≤ countRefs "@burhan_ergashov @mfarrux https://x.amocrm.ru/1" ∧
    ((extract_all_leads_info "@burhan_ergashov @mfarrux https://x.amocrm.ru/1").length =
        countHandles "@burhan_ergashov @mfarrux https://x.amocrm.ru/1" ∧
      ∀ p ∈ extract_all_leads_info "@burhan_ergashov @mfarrux https://x.amocrm.ru/1",
        searchLink ("@burhan_ergashov @mfarrux https://x.amocrm.ru/1").toList = some p.2) := by
  refine ⟨by decide, by decide, ?_⟩
  exact extract_pairing_first_link _ (by decide) (by decide)

/-- C3 counterexample: the message mentions `@Burhan_Ergashov`, and the row
that `handle_message` writes stores the lower-cased `burhan_ergashov` in the
assignee column — the original case is not preserved in the payload.  The
bucket lookup does work on the folded handle (it resolves to Ташкент). -/
theorem payload_case_counterexample :
    findHandles ("@Burhan_Ergashov https://x.amocrm.ru/1").toList = ["Burhan_Ergashov"] ∧
    handle_message (fun _ _ => true) "2025-01-01 10:00:00"
      { fromUsername := some "sender1", caption := none,
        text := some "@Burhan_Ergashov https://x.amocrm.ru/1" } =
      [{ worksheet := "Ташкент",
         row := ["2025-01-01 10:00:00", "@Burhan_Ergashov https://x.amocrm.ru/1",
                 "https://x.amocrm.ru/1", "burhan_ergashov", "sender1"],
         delivered := true }] ∧
    ("burhan_ergashov" : String) ≠ "Burhan_Ergashov" := by
  refine ⟨by decide, by decide, by decide⟩

/-- C3 amended: every extracted mention carries the lower-cased form of a
handle token of the message; the bucket lookup uses that folded form, and
the stored payload row also stores the folded form (not the original case). -/
theorem payload_lowercase (text : String) (p : String × String)
    (hp : p ∈ extract_all_leads_info text) :
    ∃ h ∈ findHandles text.toList, p.1 = lowerStr h ∧
      (∀ now sender, leadRow now text p.2 p.1 sender = [now, text, p.2, lowerStr h, sender]) ∧
      bucketFor p.1 = (user_tabs.lookup (lowerStr h)).getD "All" := by
  cases hs : searchLink text.data with
  | none =>
    rw [show extract_all_leads_info text =
          (match searchLink text.data with
           | none => []
           | some amoLink =>
             if (findHandles text.data).isEmpty then []
             else (findHandles text.data).map (fun u => (lowerStr u, amoLink))) from rfl,
        hs] at hp
    cases hp
  | some s =>
    by_cases hne : findHandles text.data = []
    · simp [extract_all_leads_info, hs, hne] at hp
    · have hp' : p ∈ (findHandles text.data).map (fun u => (lowerStr u, s)) := by
        simpa [extract_all_leads_info, hs, hne] using hp
      obtain ⟨u, hu, hpu⟩ := List.mem_map.mp hp'
      subst hpu
      exact ⟨u, hu, rfl, fun now sender => rfl, rfl⟩

theorem payload_lowercase_witness :
    (("burhan_ergashov", "https://x.amocrm.ru/1") ∈
        extract_all_leads_info "@Burhan_Ergashov https://x.amocrm.ru/1") ∧
    (∃ h ∈ findHandles ("@Burhan_Ergashov https://x.amocrm.ru/1").toList,
      "burhan_ergashov" = lowerStr h ∧
      (∀ now sender,
        leadRow now "@Burhan_Ergashov https://x.amocrm.ru/1" "https://x.amocrm.ru/1"
            "burhan_ergashov" sender =
          [now, "@Burhan_Ergashov https://x.amocrm.ru/1", "https://x.amocrm.ru/1",
           lowerStr h, sender]) ∧
      bucketFor "burhan_ergashov" = (user_tabs.lookup (lowerStr h)).getD "All") := by
  exact ⟨by decide,
    payload_lowercase "@Burhan_Ergashov https://x.amocrm.ru/1"
      ("burhan_ergashov", "https://x.amocrm.ru/1") (by decide)⟩

/-- C10: a message whose sender username is `billzsalesnotificationsbot` is
dropped by `handle_message` before extraction: no lead is processed, so no
ledger append and no backup write happens, whatever the content. -/
theorem notification_bot_ignored (ok : String → List String → Bool) (now : String)
    (m : TgMessage) (h : m.fromUsername = some "billzsalesnotificationsbot") :
    handle_message ok now m = [] := by
  simp [handle_message, h]

theorem notification_bot_ignored_witness :
    ({ fromUsername := some "billzsalesnotificationsbot", caption := none,
       text := some "@mfarrux https://x.amocrm.ru/9" } : TgMessage).fromUsername =
      some "billzsalesnotificationsbot" ∧
    handle_message (fun _ _ => true) "2025-01-01 10:00:00"
      { fromUsername := some "billzsalesnotificationsbot", caption := none,
        text := some "@mfarrux https://x.amocrm.ru/9" } = [] := by
  exact ⟨rfl, notification_bot_ignored _ _ _ rfl⟩

/-! ## Retry bound (C4) -/

/-- Against an always-failing backend, the retry loop makes one call per
remaining attempt index and sleeps `2 ^ a` after every non-final attempt. -/
theorem retryGo_always_fail (ok : Nat → Bool) (M : Nat) (h : ∀ k, ok k = false)
    (l : List Nat) :
    retryGo ok M l =
      { succeeded := false, calls := l.length,
        sleeps := (l.filter (fun a => decide (a < M - 1))).map (fun a => 2 ^ a) } := by
  induction l with
  | nil => rfl
  | cons a rest ih =>
    by_cases ha : a < M - 1
    · simp [retryGo, h a, ih, ha, List.filter_cons]
    · simp [retryGo, h a, ih, ha, List.filter_cons]

/-- Every attempt index below `N` except the last sleeps. -/
theorem range_filter_lt (N : Nat) :
    (List.range N).filter (fun a => decide (a < N - 1)) = List.range (N - 1) := by
  cases N with
  | zero => rfl
  | succ m =>
    rw [List.range_succ, List.filter_append]
    have h1 : (List.range m).filter (fun a => decide (a < m + 1 - 1)) = List.range m := by
      apply List.filter_eq_self.mpr
      intro a ha
      simp only [List.mem_range] at ha
      simpa using ha
    have h2 : ([m].filter (fun a => decide (a < m + 1 - 1))) = [] := by simp
    simp [h1, h2]

/-- C4: invoked against a backend failing on every call, the retried append
makes exactly N calls (N = `max_retries`, default 3) before returning
failure, and the sleep delays between consecutive attempts are the strictly
increasing doubling sequence 2^0, 2^1, ..., 2^(N-2). -/
theorem retry_bound (ok : Nat → Bool) (N : Nat) (h : ∀ k, ok k = false) :
    (add_lead_with_retry ok N).succeeded = false ∧
    (add_lead_with_retry ok N).calls = N ∧
    (add_lead_with_retry ok N).sleeps = (List.range (N - 1)).map (fun a => 2 ^ a) ∧
    List.Pairwise (· < ·) (add_lead_with_retry ok N).sleeps := by
  have hg := retryGo_always_fail ok N h (List.range N)
  rw [add_lead_with_retry, hg]
  refine ⟨rfl, by simp, by rw [range_filter_lt], ?_⟩
  rw [range_filter_lt]
  refine List.Pairwise.map _ ?_ (List.pairwise_lt_range (N - 1))
  intro a b hab
  exact Nat.pow_lt_pow_right (by omega) hab

theorem retry_bound_witness :
    (∀ k : Nat, (fun _ : Nat => false) k = false) ∧
    (add_lead_with_retry (fun _ => false) 3).succeeded = false ∧
    (add_lead_with_retry (fun _ => false) 3).calls = 3 ∧
    (add_lead_with_retry (fun _ => false) 3).sleeps = [1, 2] ∧
    List.Pairwise (· < ·) (add_lead_with_retry (fun _ => false) 3).sleeps := by
  have h := retry_bound (fun _ => false) 3 (fun _ => rfl)
  exact ⟨fun _ => rfl, h.1, h.2.1, by decide, h.2.2.2⟩

/-! ## Backup file format (C6) -/

/-- C6 counterexample: the persisted entry's middle field is named
`worksheet`, not `bucket`, and the partition file is named
`failed_leads_<YYYYMMDD>.json`, not `overflow_<YYYYMMDD>.json`. -/
theorem backup_format_counterexample :
    (save_to_backup "2025-01-01T10:00:00" "20250101" "Ташкент" ["a"] none).1 =
      "failed_leads_20250101.json" ∧
    "failed_leads_20250101.json" ≠ "overflow_20250101.json" ∧
    objKeys (backupEntryJson "2025-01-01T10:00:00" "Ташкент" ["a"]) =
      ["timestamp", "worksheet", "data"] ∧
    "bucket" ∉ objKeys (backupEntryJson "2025-01-01T10:00:00" "Ташкент" ["a"]) := by
  exact ⟨rfl, by decide, rfl, by decide⟩

/-- C6 amended: each overflowed delivery is appended to the date-partitioned
JSON-array file `failed_leads_<YYYYMMDD>.json`, and each persisted element is
an object with exactly the fields `timestamp`, `worksheet` and `data` (an
ordered sequence of strings), in that order. -/
theorem backup_format (isoTimestamp ymd worksheetName : String) (data : List String)
    (existing : Option (List JsonVal)) :
    (save_to_backup isoTimestamp ymd worksheetName data existing).1 =
      "failed_leads_" ++ ymd ++ ".json" ∧
    (save_to_backup isoTimestamp ymd worksheetName data existing).2 =
      existing.getD [] ++
        [JsonVal.obj [("timestamp", JsonVal.str isoTimestamp),
                      ("worksheet", JsonVal.str worksheetName),
                      ("data", JsonVal.arr (data.map JsonVal.str))]] ∧
    objKeys (backupEntryJson isoTimestamp worksheetName data) =
      ["timestamp", "worksheet", "data"] :=
  ⟨rfl, rfl, rfl⟩

/-! ## Daily report count (C9) -/

/-- The counting loop of `count_leads_for_date` computes the length of the
filtered row list. -/
theorem countFold (date : String) (rows : List (List String)) (acc : Nat) :
    rows.foldl (fun count row => if specRowMatches date row then count + 1 else count) acc =
      acc + (rows.filter (specRowMatches date)).length := by
  induction rows generalizing acc with
  | nil => simp
  | cons r rs ih =>
    by_cases hr : specRowMatches date r
    · simp [List.foldl_cons, hr, ih, List.filter_cons]
      omega
    · simp [List.foldl_cons, hr, ih, List.filter_cons]

/-- C9 counterexample: a sheet holding two data rows whose first column both
carry the requested date.  The rows matching the date number 2, but the
code unconditionally drops the first row of any sheet with more than one
row, and returns 1. -/
theorem daily_count_counterexample :
    count_leads_for_date
        (some [["2025-01-01 10:00:00"], ["2025-01-01 11:00:00"]]) "2025-01-01" = 1 ∧
    specDailyCount [["2025-01-01 10:00:00"], ["2025-01-01 11:00:00"]] "2025-01-01" = 2 ∧
    (1 : Nat) ≠ 2 := by
  exact ⟨by decide, by decide, by decide⟩

/-- C9 amended: the daily count equals the number of matching rows among the
rows that remain after the header skip — the first row is excluded exactly
when the sheet has more than one row — and a missing sub-table yields 0
rather than an error. -/
theorem daily_count_header_skip (sheet : Option (List (List String))) (date : String) :
    count_leads_for_date sheet date =
      (match sheet with
        | none => 0
        | some rows => specDailyCount (if 1 < rows.length then rows.drop 1 else rows) date) := by
  cases sheet with
  | none => rfl
  | some rows =>
    show (if 1 < rows.length then rows.drop 1 else rows).foldl
        (fun count row => if specRowMatches date row then count + 1 else count) 0 =
      specDailyCount (if 1 < rows.length then rows.drop 1 else rows) date
    rw [countFold]
    simp [specDailyCount]

/-! ## Restore pass renaming (C2) -/

/-- Renaming a file to `processed_<name>` takes it out of the
`failed_leads_*.json` glob, whatever the original name. -/
theorem globMatch_processed (name : String) : globMatch ("processed_" ++ name) = false := by
  cases name with
  | mk data => rfl

/-- C2 counterexample: one partition with two entries; the backend accepts
the first and rejects the second.  The pass reports one failure, yet the
partition is renamed to its processed form, which no longer matches the
drain glob — the still-failed entry does not remain in any unprocessed
partition. -/
theorem restore_rename_counterexample :
    restore_failed_leads (fun ws _ => ws == "Ташкент")
      [{ name := "failed_leads_20250101.json",
         content := FileContent.ok
           [{ timestamp := "t1", worksheet := "Ташкент", data := ["r1"] },
            { timestamp := "t2", worksheet := "Бухара", data := ["r2"] }] }] =
      { restored := 1, failed := 1,
        files := [{ name := "processed_failed_leads_20250101.json",
                    content := FileContent.ok
                      [{ timestamp := "t1", worksheet := "Ташкент", data := ["r1"] },
                       { timestamp := "t2", worksheet := "Бухара", data := ["r2"] }] }] } ∧
    globMatch "processed_failed_leads_20250101.json" = false := by
  exact ⟨by decide, by decide⟩

/-- C2 amended: a drain pass renames a partition file to its processed form
exactly when at least one of its entries was successfully re-delivered, even
if others still failed — the failed entries then ride along inside the
renamed file, outside the drain glob; only a partition in which every entry
failed keeps its name and remains available to a future drain. -/
theorem restore_rename_on_any_success (ok : String → List String → Bool) (name : String)
    (entries : List BackupEntry) (hglob : globMatch name = true) :
    (0 < entries.countP (fun e => entryRestored ok e) →
      restore_failed_leads ok [{ name := name, content := FileContent.ok entries }] =
        { restored := entries.countP (fun e => entryRestored ok e),
          failed := entries.countP (fun e => !(entryRestored ok e)),
          files := [{ name := "processed_" ++ name, content := FileContent.ok entries }] } ∧
      globMatch ("processed_" ++ name) = false) ∧
    (entries.countP (fun e => entryRestored ok e) = 0 →
      restore_failed_leads ok [{ name := name, content := FileContent.ok entries }] =
        { restored := 0,
          failed := entries.countP (fun e => !(entryRestored ok e)),
          files := [{ name := name, content := FileContent.ok entries }] }) := by
  constructor
  · intro hpos
    refine ⟨?_, globMatch_processed name⟩
    simp [restore_failed_leads, processFile, hglob, hpos]
  · intro hzero
    simp [restore_failed_leads, processFile, hglob, hzero]

theorem restore_rename_on_any_success_witness :
    globMatch "failed_leads_20250102.json" = true ∧
    0 < ([{ timestamp := "t1", worksheet := "Джиззак", data := ["x"] },
          { timestamp := "t2", worksheet := "Ош", data := ["y"] }] :
        List BackupEntry).countP
          (fun e => entryRestored (fun ws _ => ws == "Джиззак") e) ∧
    (restore_failed_leads (fun ws _ => ws == "Джиззак")
        [{ name := "failed_leads_20250102.json",
           content := FileContent.ok
             [{ timestamp := "t1", worksheet := "Джиззак", data := ["x"] },
              { timestamp := "t2", worksheet := "Ош", data := ["y"] }] }] =
      { restored := 1, failed := 1,
        files := [{ name := "processed_failed_leads_20250102.json",
                    content := FileContent.ok
                      [{ timestamp := "t1", worksheet := "Джиззак", data := ["x"] },
                       { timestamp := "t2", worksheet := "Ош", data := ["y"] }] }] } ∧
      globMatch "processed_failed_leads_20250102.json" = false) := by
  refine ⟨by decide, by decide, ?_⟩
  exact (restore_rename_on_any_success (fun ws _ => ws == "Джиззак") "failed_leads_20250102.json"
    [{ timestamp := "t1", worksheet := "Джиззак", data := ["x"] },
     { timestamp := "t2", worksheet := "Ош", data := ["y"] }] (by decide)).1 (by decide)

/-! ## Corrupt partition files are skipped (C8) -/

/-- C8: a corrupt partition file anywhere in the directory contributes
nothing to the backup count and nothing to the drain totals, is left
untouched by the drain, and every other file is processed exactly as it
would be without it — the model of the exception being caught and the loop
continuing with the remaining files. -/
theorem corrupt_file_skipped (ok : String → List String → Bool)
    (xs ys : List PartitionFile) (f : PartitionFile)
    (h : f.content = FileContent.corrupt) :
    count_backup_leads (xs ++ f :: ys) = count_backup_leads (xs ++ ys) ∧
    (restore_failed_leads ok (xs ++ f :: ys)).restored =
      (restore_failed_leads ok (xs ++ ys)).restored ∧
    (restore_failed_leads ok (xs ++ f :: ys)).failed =
      (restore_failed_leads ok (xs ++ ys)).failed ∧
    (restore_failed_leads ok (xs ++ f :: ys)).files =
      (restore_failed_leads ok xs).files ++ f :: (restore_failed_leads ok ys).files := by
  have hp : processFile ok f = (0, 0, f) := by
    simp [processFile, h]
  induction xs with
  | nil =>
    simp only [List.nil_append]
    refine ⟨?_, ?_, ?_, ?_⟩ <;>
      simp [count_backup_leads, restore_failed_leads, h, hp]
  | cons g gs ih =>
    obtain ⟨ih1, ih2, ih3, ih4⟩ := ih
    refine ⟨?_, ?_, ?_, ?_⟩ <;>
      simp [count_backup_leads, restore_failed_leads, ih1, ih2, ih3, ih4]

theorem corrupt_file_skipped_witness :
    ({ name := "failed_leads_20250105.json", content := FileContent.corrupt } :
        PartitionFile).content = FileContent.corrupt ∧
    count_backup_leads
      [{ name := "failed_leads_20250103.json",
         content := FileContent.ok [{ timestamp := "t", worksheet := "Ош", data := ["a"] }] },
       { name := "failed_leads_20250105.json", content := FileContent.corrupt },
       { name := "failed_leads_20250104.json",
         content := FileContent.ok
           [{ timestamp := "t", worksheet := "Ош", data := ["b"] },
            { timestamp := "t2", worksheet := "Ош", data := ["c"] }] }] = 3 ∧
    (count_backup_leads
        [{ name := "failed_leads_20250103.json",
           content := FileContent.ok [{ timestamp := "t", worksheet := "Ош", data := ["a"] }] },
         { name := "failed_leads_20250105.json", content := FileContent.corrupt },
         { name := "failed_leads_20250104.json",
           content := FileContent.ok
             [{ timestamp := "t", worksheet := "Ош", data := ["b"] },
              { timestamp := "t2", worksheet := "Ош", data := ["c"] }] }] =
      count_backup_leads
        [{ name := "failed_leads_20250103.json",
           content := FileContent.ok [{ timestamp := "t", worksheet := "Ош", data := ["a"] }] },
         { name := "failed_leads_20250104.json",
           content := FileContent.ok
             [{ timestamp := "t", worksheet := "Ош", data := ["b"] },
              { timestamp := "t2", worksheet := "Ош", data := ["c"] }] }]) := by
  refine ⟨rfl, by decide, ?_⟩
  exact (corrupt_file_skipped (fun _ _ => true)
    [{ name := "failed_leads_20250103.json",
       content := FileContent.ok [{ timestamp := "t", worksheet := "Ош", data := ["a"] }] }]
    [{ name := "failed_leads_20250104.json",
       content := FileContent.ok
         [{ timestamp := "t", worksheet := "Ош", data := ["b"] },
          { timestamp := "t2", worksheet := "Ош", data := ["c"] }] }]
    { name := "failed_leads_20250105.json", content := FileContent.corrupt } rfl).1

/-! ## Acknowledgement lifecycle lemmas (C5) -/

/-- A tracker without a live session is a fixed point of the tick. -/
theorem ackTick_session_none (D : AckDelays) (c : Option Nat) (t : Nat) (s : AckTracker)
    (h : s.session = none) : ackTick D c t s = s := by
  obtain ⟨sess, sends, exp⟩ := s
  simp only [AckTracker.mk.injEq] at h ⊢
  subst h
  simp [ackTick]

/-- A tracker without a live session is a fixed point of any run. -/
theorem ackRunFrom_session_none (D : AckDelays) (c : Option Nat) (k t : Nat)
    (s : AckTracker) (h : s.session = none) : ackRunFrom D c t k s = s := by
  induction k generalizing t with
  | zero => rfl
  | succ k ih =>
    show ackRunFrom D c (t + 1) k (ackTick D c t s) = s
    rw [ackTick_session_none D c t s h]
    exact ih (t + 1)

/-- Runs compose: `k1 + k2` ticks from `t` are `k1` ticks from `t` followed
by `k2` ticks from `t + k1`. -/
theorem ackRunFrom_add (D : AckDelays) (c : Option Nat) (k1 k2 t : Nat) (s : AckTracker) :
    ackRunFrom D c t (k1 + k2) s =
      ackRunFrom D c (t + k1) k2 (ackRunFrom D c t k1 s) := by
  induction k1 generalizing t s with
  | zero => simp [ackRunFrom]
  | succ k ih =>
    have he : k + 1 + k2 = (k + k2) + 1 := by omega
    calc ackRunFrom D c t (k + 1 + k2) s
        = ackRunFrom D c (t + 1) (k + k2) (ackTick D c t s) := by rw [he]; rfl
      _ = ackRunFrom D c (t + 1 + k) k2 (ackRunFrom D c (t + 1) k (ackTick D c t s)) :=
          ih (t + 1) (ackTick D c t s)
      _ = ackRunFrom D c (t + (k + 1)) k2 (ackRunFrom D c t (k + 1) s) := by
          have ht : t + 1 + k = t + (k + 1) := by omega
          rw [ht]; rfl

/-- With no confirmation and the tick strictly before the next scheduled
timer action, the tick does nothing. -/
theorem ackTick_quiet (D : AckDelays) (t : Nat) (s : AckTracker) (sess : AckSession)
    (hs : s.session = some sess) (ht : t < nextEventTime D sess) :
    ackTick D none t s = s := by
  have hstep : ackTick D none t s = ackTimerStep D t sess s := by
    simp [ackTick, hs]
  rw [hstep]
  obtain ⟨ca, st⟩ := sess
  cases st <;>
    simp only [nextEventTime] at ht <;>
    simp only [ackTimerStep] <;>
    rw [if_neg (by omega)]

/-- With no confirmation, a run that stays strictly before the next
scheduled timer action does nothing. -/
theorem ackRunFrom_quiet (D : AckDelays) (k t : Nat) (s : AckTracker) (sess : AckSession)
    (hs : s.session = some sess) (hk : t + k ≤ nextEventTime D sess) :
    ackRunFrom D none t k s = s := by
  induction k generalizing t with
  | zero => rfl
  | succ k ih =>
    show ackRunFrom D none (t + 1) k (ackTick D none t s) = s
    rw [ackTick_quiet D t s sess hs (by omega)]
    exact ih (t + 1) (by omega)

/-- A run that reaches past the next scheduled timer action `T` of the live
session splits into the quiet stretch up to `T`, the tick at `T`, and the
rest. -/
theorem ackPhase (D : AckDelays) (t T k r : Nat) (s s2 : AckTracker) (sess : AckSession)
    (hs : s.session = some sess) (hT : nextEventTime D sess = T)
    (hbound : t ≤ T) (hk : k = (T - t) + (1 + r))
    (htick : ackTick D none T s = s2) :
    ackRunFrom D none t k s = ackRunFrom D none (T + 1) r s2 := by
  subst hk
  rw [ackRunFrom_add D none (T - t) (1 + r) t s]
  rw [ackRunFrom_quiet D (T - t) t s sess hs (by rw [hT]; omega)]
  have h1 : t + (T - t) = T := by omega
  rw [h1]
  rw [ackRunFrom_add D none 1 r T s]
  rw [show ackRunFrom D none T 1 s = ackTick D none T s from rfl, htick]

/-- The tick at the first reminder time sends reminder 1. -/
theorem ackTickExp1 (D : AckDelays) (t0 : Nat) :
    ackTick D none (t0 + D.d1) (ackInit t0) =
      { session := some { createdAt := t0, state := AckState.reminded1 },
        sends := [t0 + D.d1], expiredAt := none } := by
  simp [ackTick, ackInit, ackTimerStep]

/-- The tick at the second reminder time sends reminder 2. -/
theorem ackTickExp2 (D : AckDelays) (t0 : Nat) :
    ackTick D none (t0 + D.d1 + D.d2)
      { session := some { createdAt := t0, state := AckState.reminded1 },
        sends := [t0 + D.d1], expiredAt := none } =
      { session := some { createdAt := t0, state := AckState.reminded2 },
        sends := [t0 + D.d1, t0 + D.d1 + D.d2], expiredAt := none } := by
  simp [ackTick, ackTimerStep]

/-- The tick at the third reminder time sends reminder 3. -/
theorem ackTickExp3 (D : AckDelays) (t0 : Nat) :
    ackTick D none (t0 + D.d1 + D.d2 + D.d3)
      { session := some { createdAt := t0, state := AckState.reminded2 },
        sends := [t0 + D.d1, t0 + D.d1 + D.d2], expiredAt := none } =
      { session := some { createdAt := t0, state := AckState.reminded3 },
        sends := [t0 + D.d1, t0 + D.d1 + D.d2, t0 + D.d1 + D.d2 + D.d3],
        expiredAt := none } := by
  simp [ackTick, ackTimerStep]

/-- The tick at the expiry time removes the session and records expiry. -/
theorem ackTickExp4 (D : AckDelays) (t0 : Nat) :
    ackTick D none (t0 + D.d1 + D.d2 + D.d3 + D.d4)
      { session := some { createdAt := t0, state := AckState.reminded3 },
        sends := [t0 + D.d1, t0 + D.d1 + D.d2, t0 + D.d1 + D.d2 + D.d3],
        expiredAt := none } =
      { session := none,
        sends := [t0 + D.d1, t0 + D.d1 + D.d2, t0 + D.d1 + D.d2 + D.d3],
        expiredAt := some (t0 + D.d1 + D.d2 + D.d3 + D.d4) } := by
  simp [ackTick, ackTimerStep]

/-- With no confirmation and enough observed ticks, the session walks
through all three reminders and expires at D1+D2+D3+D4 after creation. -/
theorem ackRun_expiry (D : AckDelays) (t0 steps : Nat)
    (h2 : 1 ≤ D.d2) (h3 : 1 ≤ D.d3) (h4 : 1 ≤ D.d4)
    (hsteps : D.d1 + D.d2 + D.d3 + D.d4 < steps) :
    ackRun D none t0 steps =
      { session := none,
        sends := [t0 + D.d1, t0 + D.d1 + D.d2, t0 + D.d1 + D.d2 + D.d3],
        expiredAt := some (t0 + D.d1 + D.d2 + D.d3 + D.d4) } := by
  show ackRunFrom D none t0 steps (ackInit t0) = _
  calc ackRunFrom D none t0 steps (ackInit t0)
      = ackRunFrom D none (t0 + D.d1 + 1) (steps - (D.d1 + 1))
          { session := some { createdAt := t0, state := AckState.reminded1 },
            sends := [t0 + D.d1], expiredAt := none } :=
        ackPhase D t0 (t0 + D.d1) steps (steps - (D.d1 + 1)) (ackInit t0) _
          { createdAt := t0, state := AckState.pending } rfl rfl (by omega) (by omega)
          (ackTickExp1 D t0)
    _ = ackRunFrom D none (t0 + D.d1 + D.d2 + 1) (steps - (D.d1 + D.d2 + 1))
          { session := some { createdAt := t0, state := AckState.reminded2 },
            sends := [t0 + D.d1, t0 + D.d1 + D.d2], expiredAt := none } :=
        ackPhase D (t0 + D.d1 + 1) (t0 + D.d1 + D.d2) (steps - (D.d1 + 1))
          (steps - (D.d1 + D.d2 + 1)) _ _
          { createdAt := t0, state := AckState.reminded1 } rfl rfl (by omega) (by omega)
          (ackTickExp2 D t0)
    _ = ackRunFrom D none (t0 + D.d1 + D.d2 + D.d3 + 1) (steps - (D.d1 + D.d2 + D.d3 + 1))
          { session := some { createdAt := t0, state := AckState.reminded3 },
            sends := [t0 + D.d1, t0 + D.d1 + D.d2, t0 + D.d1 + D.d2 + D.d3],
            expiredAt := none } :=
        ackPhase D (t0 + D.d1 + D.d2 + 1) (t0 + D.d1 + D.d2 + D.d3)
          (steps - (D.d1 + D.d2 + 1)) (steps - (D.d1 + D.d2 + D.d3 + 1)) _ _
          { createdAt := t0, state := AckState.reminded2 } rfl rfl (by omega) (by omega)
          (ackTickExp3 D t0)
    _ = ackRunFrom D none (t0 + D.d1 + D.d2 + D.d3 + D.d4 + 1)
          (steps - (D.d1 + D.d2 + D.d3 + D.d4 + 1))
          { session := none,
            sends := [t0 + D.d1, t0 + D.d1 + D.d2, t0 + D.d1 + D.d2 + D.d3],
            expiredAt := some (t0 + D.d1 + D.d2 + D.d3 + D.d4) } :=
        ackPhase D (t0 + D.d1 + D.d2 + D.d3 + 1) (t0 + D.d1 + D.d2 + D.d3 + D.d4)
          (steps - (D.d1 + D.d2 + D.d3 + 1)) (steps - (D.d1 + D.d2 + D.d3 + D.d4 + 1)) _ _
          { createdAt := t0, state := AckState.reminded3 } rfl rfl (by omega) (by omega)
          (ackTickExp4 D t0)
    _ = { session := none,
          sends := [t0 + D.d1, t0 + D.d1 + D.d2, t0 + D.d1 + D.d2 + D.d3],
          expiredAt := some (t0 + D.d1 + D.d2 + D.d3 + D.d4) } :=
        ackRunFrom_session_none D none _ _ _ rfl

/-- One tick preserves the confirmation invariant: before the confirmation
time no reminder at or past it has been sent; from the confirmation time on
the session is gone; the session (if any) still carries its creation time;
and the session has not expired. -/
theorem ackTick_inv (D : AckDelays) (t0 cv t : Nat) (s : AckTracker)
    (hcv : cv < t0 + D.d1 + D.d2 + D.d3 + D.d4)
    (hsend : ∀ x ∈ s.sends, x < cv)
    (hnone : cv < t → s.session = none)
    (hca : ∀ sess, s.session = some sess → sess.createdAt = t0)
    (hexp : s.expiredAt = none) :
    (∀ x ∈ (ackTick D (some cv) t s).sends, x < cv) ∧
    (cv < t + 1 → (ackTick D (some cv) t s).session = none) ∧
    (∀ sess, (ackTick D (some cv) t s).session = some sess → sess.createdAt = t0) ∧
    (ackTick D (some cv) t s).expiredAt = none := by
  by_cases hc : cv = t
  · subst hc
    have hstep : ackTick D (some cv) cv s = { s with session := none } := by
      simp [ackTick]
    rw [hstep]
    exact ⟨hsend, fun _ => rfl, by simp, hexp⟩
  · cases hs : s.session with
    | none =>
      rw [ackTick_session_none D (some cv) t s hs]
      exact ⟨hsend, fun _ => hs, hca, hexp⟩
    | some sess =>
      have htlt : t < cv := by
        rcases Nat.lt_trichotomy cv t with h' | h' | h'
        · rw [hnone h'] at hs
          cases hs
        · exact absurd h' hc
        · exact h'
      have hca' : sess.createdAt = t0 := hca sess hs
      obtain ⟨ca, st⟩ := sess
      simp only at hca'
      have hca2 : t0 = ca := hca'.symm
      subst hca2
      have hstep : ackTick D (some cv) t s =
          ackTimerStep D t { createdAt := t0, state := st } s := by
        simp [ackTick, hc, hs]
      rw [hstep]
      cases st with
      | pending =>
        by_cases hf : t = t0 + D.d1
        · simp only [ackTimerStep]
          rw [if_pos hf]
          refine ⟨?_, fun hlt => absurd hlt (by omega), ?_, hexp⟩
          · intro x hx
            rcases List.mem_append.mp hx with hx | hx
            · exact hsend x hx
            · simp only [List.mem_singleton] at hx
              omega
          · intro sess2 hsess2
            rw [← Option.some.inj hsess2]
        · simp only [ackTimerStep]
          rw [if_neg hf]
          exact ⟨hsend, fun hlt => absurd hlt (by omega), hca, hexp⟩
      | reminded1 =>
        by_cases hf : t = t0 + D.d1 + D.d2
        · simp only [ackTimerStep]
          rw [if_pos hf]
          refine ⟨?_, fun hlt => absurd hlt (by omega), ?_, hexp⟩
          · intro x hx
            rcases List.mem_append.mp hx with hx | hx
            · exact hsend x hx
            · simp only [List.mem_singleton] at hx
              omega
          · intro sess2 hsess2
            rw [← Option.some.inj hsess2]
        · simp only [ackTimerStep]
          rw [if_neg hf]
          exact ⟨hsend, fun hlt => absurd hlt (by omega), hca, hexp⟩
      | reminded2 =>
        by_cases hf : t = t0 + D.d1 + D.d2 + D.d3
        · simp only [ackTimerStep]
          rw [if_pos hf]
          refine ⟨?_, fun hlt => absurd hlt (by omega), ?_, hexp⟩
          · intro x hx
            rcases List.mem_append.mp hx with hx | hx
            · exact hsend x hx
            · simp only [List.mem_singleton] at hx
              omega
          · intro sess2 hsess2
            rw [← Option.some.inj hsess2]
        · simp only [ackTimerStep]
          rw [if_neg hf]
          exact ⟨hsend, fun hlt => absurd hlt (by omega), hca, hexp⟩
      | reminded3 =>
        have hf : t ≠ t0 + D.d1 + D.d2 + D.d3 + D.d4 := by omega
        simp only [ackTimerStep]
        rw [if_neg hf]
        exact ⟨hsend, fun hlt => absurd hlt (by omega), hca, hexp⟩

/-- The confirmation invariant carried through a whole run. -/
theorem ackRunFrom_inv (D : AckDelays) (t0 cv : Nat)
    (hcv : cv < t0 + D.d1 + D.d2 + D.d3 + D.d4) :
    ∀ (k t : Nat) (s : AckTracker),
      (∀ x ∈ s.sends, x < cv) → (cv < t → s.session = none) →
      (∀ sess, s.session = some sess → sess.createdAt = t0) → s.expiredAt = none →
      (∀ x ∈ (ackRunFrom D (some cv) t k s).sends, x < cv) ∧
      (cv < t + k → (ackRunFrom D (some cv) t k s).session = none) ∧
      (ackRunFrom D (some cv) t k s).expiredAt = none := by
  intro k
  induction k with
  | zero =>
    intro t s hsend hnone _ hexp
    exact ⟨hsend, hnone, hexp⟩
  | succ k ih =>
    intro t s hsend hnone hca hexp
    obtain ⟨g1, g2, g3, g4⟩ := ackTick_inv D t0 cv t s hcv hsend hnone hca hexp
    have hrest := ih (t + 1) (ackTick D (some cv) t s) g1 g2 g3 g4
    refine ⟨hrest.1, ?_, hrest.2.2⟩
    intro hlt
    exact hrest.2.1 (by omega)

/-- C5: modelled against the spec's acknowledgement tracker.  A session is
created in `pending` after a successful delivery reply; with no confirmation
it sends the three reminders and, once D1+D2+D3+D4 have elapsed, expires and
is removed; a confirmation at any time `cv` before expiry removes the
session, the session never expires, and no reminder is sent at or after the
confirmation time. -/
theorem ack_lifecycle (D : AckDelays) (t0 : Nat)
    (_hd1 : 1 ≤ D.d1) (hd2 : 1 ≤ D.d2) (hd3 : 1 ≤ D.d3) (hd4 : 1 ≤ D.d4) :
    (ackInit t0).session = some { createdAt := t0, state := AckState.pending } ∧
    (∀ steps, D.d1 + D.d2 + D.d3 + D.d4 < steps →
      ackRun D none t0 steps =
        { session := none,
          sends := [t0 + D.d1, t0 + D.d1 + D.d2, t0 + D.d1 + D.d2 + D.d3],
          expiredAt := some (t0 + D.d1 + D.d2 + D.d3 + D.d4) }) ∧
    (∀ cv steps, t0 ≤ cv → cv < t0 + D.d1 + D.d2 + D.d3 + D.d4 → cv < t0 + steps →
      (ackRun D (some cv) t0 steps).session = none ∧
      (ackRun D (some cv) t0 steps).expiredAt = none ∧
      ∀ x ∈ (ackRun D (some cv) t0 steps).sends, x < cv) := by
  refine ⟨rfl, ?_, ?_⟩
  · intro steps hsteps
    exact ackRun_expiry D t0 steps hd2 hd3 hd4 hsteps
  · intro cv steps hcv1 hcv2 hcv3
    have hinv := ackRunFrom_inv D t0 cv hcv2 steps t0 (ackInit t0)
      (by intro x hx; cases hx)
      (fun hlt => absurd hlt (by omega))
      (fun sess hsess => by rw [← Option.some.inj hsess])
      rfl
    exact ⟨hinv.2.1 hcv3, hinv.2.2, hinv.1⟩

theorem ack_lifecycle_witness :
    ((1 : Nat) ≤ 2 ∧ (1 : Nat) ≤ 2 ∧ (1 : Nat) ≤ 2 ∧ (1 : Nat) ≤ 2) ∧
    ackRun { d1 := 2, d2 := 2, d3 := 2, d4 := 2 } none 0 10 =
      { session := none, sends := [2, 4, 6], expiredAt := some 8 } ∧
    ((ackRun { d1 := 2, d2 := 2, d3 := 2, d4 := 2 } (some 5) 0 10).session = none ∧
     (ackRun { d1 := 2, d2 := 2, d3 := 2, d4 := 2 } (some 5) 0 10).expiredAt = none ∧
     ∀ x ∈ (ackRun { d1 := 2, d2 := 2, d3 := 2, d4 := 2 } (some 5) 0 10).sends, x < 5) := by
  have h := ack_lifecycle { d1 := 2, d2 := 2, d3 := 2, d4 := 2 } 0
    (by decide) (by decide) (by decide) (by decide)
  refine ⟨⟨by decide, by decide, by decide, by decide⟩, ?_, ?_⟩
  · have he := h.2.1 10 (by decide)
    simpa using he
  · exact h.2.2 5 10 (by decide) (by decide) (by decide)
